import Mathlib

/-!
Shallow embedding of the BioCalc carbon-intensity engine
(src/core/fase_agricola.py, fase_industrial.py, fase_distribuicao.py,
fase_uso.py, calculo.py and src/utils/validacao.py).

Python floats are modelled as exact rationals (ℚ); Python dicts with
`.get(key, default)` access are modelled as structures whose fields are
`Option` values (`none` = key absent), with `Option.getD` playing the
role of `.get`.  The factor table (`self.fatores`) is a function from
factor name to an optional value, so the Python chain of `.get` on the
table and then on the `valor` key becomes `(fatores name).getD d`.
-/

namespace BioCalc

/-- The factor table: factor name ↦ optional value (the `valor` field of the
CSV row).  A `none` value models a factor absent from the loaded table. -/
def Fatores : Type := String → Option ℚ

/-- Models the Python lookup of `valor` for `nome` in the factor table with
default `padrao`. -/
def getFator (fatores : Fatores) (nome : String) (padrao : ℚ) : ℚ :=
  (fatores nome).getD padrao

/-- One biomass profile from the preset catalog (the fields of
`biomassas[nome]` that the engine reads, plus the category). -/
structure BiomassaInfo where
  pci : ℚ
  densidade : ℚ
  fator_biomassa_agricola : ℚ
  categoria : String
deriving DecidableEq, Repr

/-- The biomass catalog: biomass id ↦ optional profile. -/
def Biomassas : Type := String → Option BiomassaInfo

/-! ## Phase inputs (Python dicts, fields optional) -/

/-- Input dict of the agricultural phase (`dados` of
`FaseAgricola.calcular_emissoes`). -/
structure DadosAgricola where
  quantidade_biomassa_kg : Option ℚ := none
  distancia_transporte_km : Option ℚ := none
  uso_fertilizantes_kg : Option ℚ := none
  uso_pesticidas_kg : Option ℚ := none
  luc_dluc_opcional_kg_co2 : Option ℚ := none
  fator_biomassa_agricola : Option ℚ := none
deriving DecidableEq, Repr

/-- Input dict of the industrial phase. -/
structure DadosIndustrial where
  energia_eletrica_kwh : Option ℚ := none
  energia_termica_mj : Option ℚ := none
  agua_m3 : Option ℚ := none
deriving DecidableEq, Repr

/-- Input dict of the distribution phase. -/
structure DadosDistribuicao where
  modal_transporte : Option String := none
  distancia_km : Option ℚ := none
  quantidade_biomassa_kg : Option ℚ := none
deriving DecidableEq, Repr

/-- Input dict of the use phase. -/
structure DadosUso where
  quantidade_biomassa_kg : Option ℚ := none
  pci : Option ℚ := none
  tipo_combustao : Option String := none
deriving DecidableEq, Repr

/-! ## Phase results -/

/-- Python `detalhamento` of the agricultural phase result. -/
structure DetalhamentoAgricola where
  biomassa : ℚ
  fertilizantes : ℚ
  pesticidas : ℚ
  transporte : ℚ
  luc_dluc : ℚ
deriving DecidableEq, Repr

/-- Result dict of `FaseAgricola.calcular_emissoes`. -/
structure ResultadoAgricola where
  emissoes_kg_co2 : ℚ
  detalhamento : DetalhamentoAgricola
deriving DecidableEq, Repr

/-- Python `detalhamento` of the industrial phase result. -/
structure DetalhamentoIndustrial where
  energia_eletrica : ℚ
  energia_termica : ℚ
  agua : ℚ
deriving DecidableEq, Repr

/-- Result dict of `FaseIndustrial.calcular_emissoes`. -/
structure ResultadoIndustrial where
  emissoes_kg_co2 : ℚ
  detalhamento : DetalhamentoIndustrial
deriving DecidableEq, Repr

/-- Python `detalhamento` of the distribution phase result. -/
structure DetalhamentoDistribuicao where
  transporte : ℚ
  modal : String
  distancia_km : ℚ
deriving DecidableEq, Repr

/-- Result dict of `FaseDistribuicao.calcular_emissoes`. -/
structure ResultadoDistribuicao where
  emissoes_kg_co2 : ℚ
  detalhamento : DetalhamentoDistribuicao
deriving DecidableEq, Repr

/-- Python `detalhamento` of the use phase result. -/
structure DetalhamentoUso where
  combustao : ℚ
  tipo_combustao : String
  energia_gerada_mj : ℚ
deriving DecidableEq, Repr

/-- Result dict of `FaseUso.calcular_emissoes` (the biogenic emissions are
reported in their own field, outside `detalhamento`, as in the source). -/
structure ResultadoUso where
  emissoes_kg_co2 : ℚ
  detalhamento : DetalhamentoUso
  emissoes_biogenicas_kg_co2 : ℚ
deriving DecidableEq, Repr

/-! ## The four phase calculators -/

/-- Python `FaseAgricola.calcular_emissoes` (src/core/fase_agricola.py). -/
def FaseAgricola.calcular_emissoes (fatores : Fatores) (dados : DadosAgricola) :
    ResultadoAgricola :=
  let biomassa_kg := dados.quantidade_biomassa_kg.getD 0
  let distancia_km := dados.distancia_transporte_km.getD 0
  let fertilizantes_kg := dados.uso_fertilizantes_kg.getD 0
  let pesticidas_kg := dados.uso_pesticidas_kg.getD 0
  let luc_dluc_kg_co2 := dados.luc_dluc_opcional_kg_co2.getD 0
  let fator_biomassa := dados.fator_biomassa_agricola.getD 100
  let fator_fertilizante := getFator fatores "fator_fertilizante_n" 6540
  let fator_pesticida := getFator fatores "fator_pesticida" 10000
  let fator_transporte := getFator fatores "fator_transporte_rodoviario" 62
  let emissoes_biomassa := (biomassa_kg * fator_biomassa) / 1000
  let emissoes_fertilizantes := (fertilizantes_kg * fator_fertilizante) / 1000
  let emissoes_pesticidas := (pesticidas_kg * fator_pesticida) / 1000
  let emissoes_transporte := (fator_transporte * distancia_km * biomassa_kg / 1000) / 1000
  let emissoes_luc := luc_dluc_kg_co2
  let emissoes_totais := emissoes_biomassa + emissoes_fertilizantes +
    emissoes_pesticidas + emissoes_transporte + emissoes_luc
  { emissoes_kg_co2 := emissoes_totais
    detalhamento :=
      { biomassa := emissoes_biomassa
        fertilizantes := emissoes_fertilizantes
        pesticidas := emissoes_pesticidas
        transporte := emissoes_transporte
        luc_dluc := emissoes_luc } }

/-- Python `FaseIndustrial.calcular_emissoes` (src/core/fase_industrial.py). -/
def FaseIndustrial.calcular_emissoes (fatores : Fatores) (dados : DadosIndustrial) :
    ResultadoIndustrial :=
  let energia_eletrica := dados.energia_eletrica_kwh.getD 0
  let energia_termica := dados.energia_termica_mj.getD 0
  let agua := dados.agua_m3.getD 0
  let fator_eletricidade := getFator fatores "fator_eletricidade_br" 95
  let fator_energia_termica := getFator fatores "fator_diesel" 2680 / 38
  let fator_agua := getFator fatores "fator_agua" 0.36
  let emissoes_eletricidade := (energia_eletrica * fator_eletricidade) / 1000
  let emissoes_termica := (energia_termica * fator_energia_termica) / 1000
  let emissoes_agua := (agua * fator_agua) / 1000
  { emissoes_kg_co2 := emissoes_eletricidade + emissoes_termica + emissoes_agua
    detalhamento :=
      { energia_eletrica := emissoes_eletricidade
        energia_termica := emissoes_termica
        agua := emissoes_agua } }

/-- The `fatores_modal.get(modal, 62)` dispatch of
`FaseDistribuicao.calcular_emissoes`: mode ↦ per-mode factor, with the
hard-coded 62 fallback for a mode outside the dict. -/
def fatorModal (fatores : Fatores) (modal : String) : ℚ :=
  if modal = "rodoviario" then getFator fatores "fator_transporte_rodoviario" 62
  else if modal = "maritimo" then getFator fatores "fator_transporte_maritimo" 8.5
  else if modal = "ferroviario" then getFator fatores "fator_transporte_ferroviario" 22
  else 62

/-- Python `FaseDistribuicao.calcular_emissoes` (src/core/fase_distribuicao.py). -/
def FaseDistribuicao.calcular_emissoes (fatores : Fatores) (dados : DadosDistribuicao) :
    ResultadoDistribuicao :=
  let modal := dados.modal_transporte.getD "rodoviario"
  let distancia := dados.distancia_km.getD 0
  let biomassa_kg := dados.quantidade_biomassa_kg.getD 0
  let fator_transporte := fatorModal fatores modal
  let emissoes_transporte := (fator_transporte * distancia * biomassa_kg / 1000) / 1000
  { emissoes_kg_co2 := emissoes_transporte
    detalhamento :=
      { transporte := emissoes_transporte
        modal := modal
        distancia_km := distancia } }

/-- Python `FaseUso.calcular_emissoes` (src/core/fase_uso.py). -/
def FaseUso.calcular_emissoes (fatores : Fatores) (dados : DadosUso) :
    ResultadoUso :=
  let biomassa_kg := dados.quantidade_biomassa_kg.getD 0
  let pci := dados.pci.getD 18
  let tipo_combustao := dados.tipo_combustao.getD "caldeira"
  let fator_combustao := getFator fatores "fator_combustao" 0
  let emissoes_combustao := (biomassa_kg * pci * fator_combustao) / 1000
  let emissoes_biogenicas := biomassa_kg * 1.84
  { emissoes_kg_co2 := emissoes_combustao
    detalhamento :=
      { combustao := emissoes_combustao
        tipo_combustao := tipo_combustao
        energia_gerada_mj := biomassa_kg * pci }
    emissoes_biogenicas_kg_co2 := emissoes_biogenicas }

/-! ## The aggregator (src/core/calculo.py) -/

/-- The full input dict of `calcular_intensidade_carbono`
(`dados_entrada`): the biomass id and the four per-phase sub-dicts.
A `none` sub-record models an absent key, for which the Python source
substitutes a fresh empty dict. -/
structure DadosEntrada where
  biomassa : Option String := none
  fase_agricola : Option DadosAgricola := none
  fase_industrial : Option DadosIndustrial := none
  fase_distribuicao : Option DadosDistribuicao := none
  fase_uso : Option DadosUso := none
deriving DecidableEq, Repr

/-- The two `ValueError` exits of `calcular_intensidade_carbono`:
biomass id absent (or empty, which is falsy in Python) and biomass id
not found in the catalog. -/
inductive ErroCalculo where
  | missingBiomassId : ErroCalculo
  | unknownBiomass : String → ErroCalculo
deriving DecidableEq, Repr

/-- The `comparacao_fossil` sub-dict of the aggregate result. -/
structure ComparacaoFossil where
  ci_fossil_referencia_g_co2_mj : ℚ
  ci_biocombustivel_g_co2_mj : ℚ
  reducao_g_co2_mj : ℚ
  reducao_percentual : ℚ
deriving DecidableEq, Repr

/-- The per-phase percentages (`percentuais`) of the aggregate result. -/
structure Percentuais where
  agricola : ℚ
  industrial : ℚ
  distribuicao : ℚ
  uso : ℚ
deriving DecidableEq, Repr

/-- The aggregate result dict returned by `calcular_intensidade_carbono`.
The per-phase entries of `resultados_por_fase` copy the emissions of each phase result and its detail verbatim and add the percentage, so they are kept
here as the raw phase results plus the `Percentuais` record. -/
structure Resultado where
  biomassa : String
  biomassa_info : BiomassaInfo
  agricola : ResultadoAgricola
  industrial : ResultadoIndustrial
  distribuicao : ResultadoDistribuicao
  uso : ResultadoUso
  percentuais : Percentuais
  emissoes_totais_kg_co2 : ℚ
  energia_total_mj : ℚ
  intensidade_carbono_g_co2_mj : ℚ
  neea : ℚ
  comparacao_fossil : ComparacaoFossil
deriving DecidableEq, Repr

/-- Success branch of `CalculadoraBioCalc.calcular_intensidade_carbono`
(src/core/calculo.py), i.e. the body after the biomass profile has been
resolved to `biomassa_info`.

The Python method mutates the caller-supplied per-phase sub-dicts in place
(it injects `fator_biomassa_agricola` into the agricultural dict, the
agricultural biomass quantity into the distribution dict, and that quantity
plus the profile PCI into the use dict).  The embedding therefore returns,
on success, the pair of the result and the post-call state of
`dados_entrada` as the caller observes it: a sub-record that was present is
aliased, so the injections show through; an absent one was replaced by a
fresh dict invisible to the caller, so it stays `none`.  Both error exits
occur before any mutation. -/
def calcularNucleo (fatores : Fatores) (dados_entrada : DadosEntrada)
    (nome_biomassa : String) (biomassa_info : BiomassaInfo) :
    Resultado × DadosEntrada :=
  let dados_agricola0 := dados_entrada.fase_agricola.getD {}
  let dados_agricola :=
    { dados_agricola0 with
      fator_biomassa_agricola := some biomassa_info.fator_biomassa_agricola }
  let dados_industrial := dados_entrada.fase_industrial.getD {}
  let dados_distribuicao0 := dados_entrada.fase_distribuicao.getD {}
  let dados_distribuicao :=
    { dados_distribuicao0 with
      quantidade_biomassa_kg := some (dados_agricola.quantidade_biomassa_kg.getD 0) }
  let dados_uso0 := dados_entrada.fase_uso.getD {}
  let dados_uso :=
    { dados_uso0 with
      quantidade_biomassa_kg := some (dados_agricola.quantidade_biomassa_kg.getD 0)
      pci := some biomassa_info.pci }
  let resultado_agricola := FaseAgricola.calcular_emissoes fatores dados_agricola
  let resultado_industrial := FaseIndustrial.calcular_emissoes fatores dados_industrial
  let resultado_distribuicao := FaseDistribuicao.calcular_emissoes fatores dados_distribuicao
  let resultado_uso := FaseUso.calcular_emissoes fatores dados_uso
  let emissoes_totais :=
    resultado_agricola.emissoes_kg_co2 +
    resultado_industrial.emissoes_kg_co2 +
    resultado_distribuicao.emissoes_kg_co2 +
    resultado_uso.emissoes_kg_co2
  let energia_total_mj :=
    (dados_uso.quantidade_biomassa_kg.getD 0) * biomassa_info.pci
  let intensidade_carbono :=
    if energia_total_mj > 0 then (emissoes_totais * 1000) / energia_total_mj else 0
  let ci_fossil := getFator fatores "ci_fossil_referencia" 85
  let neea := ci_fossil - intensidade_carbono
  let percentuais : Percentuais :=
    if emissoes_totais > 0 then
      { agricola := (resultado_agricola.emissoes_kg_co2 / emissoes_totais) * 100
        industrial := (resultado_industrial.emissoes_kg_co2 / emissoes_totais) * 100
        distribuicao := (resultado_distribuicao.emissoes_kg_co2 / emissoes_totais) * 100
        uso := (resultado_uso.emissoes_kg_co2 / emissoes_totais) * 100 }
    else
      { agricola := 0, industrial := 0, distribuicao := 0, uso := 0 }
  let reducao_percentual := if ci_fossil > 0 then (neea / ci_fossil) * 100 else 0
  let resultado : Resultado :=
    { biomassa := nome_biomassa
      biomassa_info := biomassa_info
      agricola := resultado_agricola
      industrial := resultado_industrial
      distribuicao := resultado_distribuicao
      uso := resultado_uso
      percentuais := percentuais
      emissoes_totais_kg_co2 := emissoes_totais
      energia_total_mj := energia_total_mj
      intensidade_carbono_g_co2_mj := intensidade_carbono
      neea := neea
      comparacao_fossil :=
        { ci_fossil_referencia_g_co2_mj := ci_fossil
          ci_biocombustivel_g_co2_mj := intensidade_carbono
          reducao_g_co2_mj := neea
          reducao_percentual := reducao_percentual } }
  let pos_entrada : DadosEntrada :=
    { biomassa := dados_entrada.biomassa
      fase_agricola := dados_entrada.fase_agricola.map (fun _ => dados_agricola)
      fase_industrial := dados_entrada.fase_industrial
      fase_distribuicao := dados_entrada.fase_distribuicao.map (fun _ => dados_distribuicao)
      fase_uso := dados_entrada.fase_uso.map (fun _ => dados_uso) }
  (resultado, pos_entrada)

/-- Python `CalculadoraBioCalc.calcular_intensidade_carbono`
(src/core/calculo.py): the two `ValueError` guards followed by the success
branch `calcularNucleo`.  An absent biomass id and an empty one both take
the `not nome_biomassa` exit of the source (the empty string is falsy in
Python). -/
def calcular_intensidade_carbono (fatores : Fatores) (biomassas : Biomassas)
    (dados_entrada : DadosEntrada) :
    Except ErroCalculo (Resultado × DadosEntrada) :=
  match dados_entrada.biomassa with
  | none => .error .missingBiomassId
  | some nome_biomassa =>
    if nome_biomassa = "" then .error .missingBiomassId
    else
      match biomassas nome_biomassa with
      | none => .error (.unknownBiomass nome_biomassa)
      | some biomassa_info =>
        .ok (calcularNucleo fatores dados_entrada nome_biomassa biomassa_info)

/-! ## The validator (src/utils/validacao.py)

Error messages follow the source strings; the numeric value interpolated by
the Python f-string is rendered here with the rational printer instead of
the float printer, which is the only divergence. -/

/-- Python `Validador.validar_positivo`. -/
def validar_positivo (valor : ℚ) (nome_campo : String) : Bool × String :=
  if valor < 0 then
    (false, nome_campo ++ " deve ser um valor positivo (valor: " ++ toString valor ++ ")")
  else (true, "")

/-- Python `Validador.validar_range`. -/
def validar_range (valor : ℚ) (nome_campo : String) (min_val max_val : ℚ) :
    Bool × String :=
  if valor < min_val ∨ valor > max_val then
    (false, nome_campo ++ " deve estar entre " ++ toString min_val ++ " e " ++
      toString max_val ++ " (valor: " ++ toString valor ++ ")")
  else (true, "")

/-- Python `Validador.validar_fase_agricola`. -/
def validar_fase_agricola (dados : DadosAgricola) : Bool × List String :=
  let erros : List String := []
  let biomassa := dados.quantidade_biomassa_kg.getD 0
  let erros :=
    if biomassa ≤ 0 then erros ++ ["Quantidade de biomassa deve ser maior que zero"]
    else if biomassa > 1000000 then
      erros ++ ["Quantidade de biomassa muito alta (máximo: 1.000.000 kg)"]
    else erros
  let distancia := dados.distancia_transporte_km.getD 0
  let vd := validar_positivo distancia "Distância de transporte"
  let erros :=
    if !vd.1 then erros ++ [vd.2]
    else if distancia > 1000 then
      erros ++ ["AVISO: Distância de transporte muito alta para fase agrícola (>1000 km)"]
    else erros
  let fertilizantes := dados.uso_fertilizantes_kg.getD 0
  let vf := validar_positivo fertilizantes "Uso de fertilizantes"
  let erros :=
    if !vf.1 then erros ++ [vf.2]
    else if fertilizantes > 100000 then
      erros ++ ["Uso de fertilizantes muito alto (máximo razoável: 100.000 kg)"]
    else erros
  let pesticidas := dados.uso_pesticidas_kg.getD 0
  let vp := validar_positivo pesticidas "Uso de pesticidas"
  let erros :=
    if !vp.1 then erros ++ [vp.2]
    else if pesticidas > 10000 then
      erros ++ ["Uso de pesticidas muito alto (máximo razoável: 10.000 kg)"]
    else erros
  let luc := dados.luc_dluc_opcional_kg_co2.getD 0
  let vl := validar_positivo luc "LUC/dLUC"
  let erros := if !vl.1 then erros ++ [vl.2] else erros
  (erros.isEmpty, erros)

/-- Python `Validador.validar_fase_industrial`. -/
def validar_fase_industrial (dados : DadosIndustrial) : Bool × List String :=
  let erros : List String := []
  let energia_eletrica := dados.energia_eletrica_kwh.getD 0
  let ve := validar_positivo energia_eletrica "Energia elétrica"
  let erros :=
    if !ve.1 then erros ++ [ve.2]
    else if energia_eletrica > 1000000 then
      erros ++ ["Consumo de energia elétrica muito alto (máximo razoável: 1.000.000 kWh)"]
    else erros
  let energia_termica := dados.energia_termica_mj.getD 0
  let vt := validar_positivo energia_termica "Energia térmica"
  let erros :=
    if !vt.1 then erros ++ [vt.2]
    else if energia_termica > 10000000 then
      erros ++ ["Consumo de energia térmica muito alto (máximo razoável: 10.000.000 MJ)"]
    else erros
  let agua := dados.agua_m3.getD 0
  let va := validar_positivo agua "Consumo de água"
  let erros :=
    if !va.1 then erros ++ [va.2]
    else if agua > 100000 then
      erros ++ ["Consumo de água muito alto (máximo razoável: 100.000 m³)"]
    else erros
  (erros.isEmpty, erros)

/-- Python `Validador.validar_fase_distribuicao`. -/
def validar_fase_distribuicao (dados : DadosDistribuicao) : Bool × List String :=
  let erros : List String := []
  let modal := dados.modal_transporte.getD ""
  let erros :=
    if modal ∈ ["rodoviario", "maritimo", "ferroviario"] then erros
    else erros ++ ["Modal de transporte inválido. Opções: rodoviario, maritimo, ferroviario"]
  let distancia := dados.distancia_km.getD 0
  let vd := validar_positivo distancia "Distância de distribuição"
  let erros :=
    if !vd.1 then erros ++ [vd.2]
    else if distancia > 50000 then
      erros ++ ["Distância de distribuição muito alta (máximo razoável: 50.000 km)"]
    else erros
  (erros.isEmpty, erros)

/-- Python `Validador.validar_fase_uso`. -/
def validar_fase_uso (dados : DadosUso) : Bool × List String :=
  let erros : List String := []
  let tipo := dados.tipo_combustao.getD "caldeira"
  let erros :=
    if tipo ∈ ["caldeira", "fornalha", "outro"] then erros
    else erros ++ ["Tipo de combustão inválido. Opções: caldeira, fornalha, outro"]
  (erros.isEmpty, erros)

/-- Python `Validador.validar_completo`: the error map is kept as an association
list in the insertion order of the source. -/
def validar_completo (dados_entrada : DadosEntrada) :
    Bool × List (String × List String) :=
  let erros_por_fase : List (String × List String) := []
  let biomassa := dados_entrada.biomassa.getD ""
  let erros_por_fase :=
    if biomassa ∈ ["amendoim", "pinus", "eucalipto"] then erros_por_fase
    else erros_por_fase ++
      [("biomassa", ["Biomassa inválida. Opções: amendoim, pinus, eucalipto"])]
  let ra := validar_fase_agricola (dados_entrada.fase_agricola.getD {})
  let erros_por_fase :=
    if ra.1 then erros_por_fase else erros_por_fase ++ [("fase_agricola", ra.2)]
  let ri := validar_fase_industrial (dados_entrada.fase_industrial.getD {})
  let erros_por_fase :=
    if ri.1 then erros_por_fase else erros_por_fase ++ [("fase_industrial", ri.2)]
  let rd := validar_fase_distribuicao (dados_entrada.fase_distribuicao.getD {})
  let erros_por_fase :=
    if rd.1 then erros_por_fase else erros_por_fase ++ [("fase_distribuicao", rd.2)]
  let ru := validar_fase_uso (dados_entrada.fase_uso.getD {})
  let erros_por_fase :=
    if ru.1 then erros_por_fase else erros_por_fase ++ [("fase_uso", ru.2)]
  (erros_por_fase.isEmpty, erros_por_fase)

/-! ## Absent-field filling

Replacing every absent numeric field of a phase input by an explicit 0
must not change the validator verdict (the source reads each numeric field
with `.get(chave, 0)` before any range check). -/

/-- Agricultural input with every absent validated numeric field made an
explicit 0. -/
def preencherAgricola (d : DadosAgricola) : DadosAgricola :=
  { quantidade_biomassa_kg := some (d.quantidade_biomassa_kg.getD 0)
    distancia_transporte_km := some (d.distancia_transporte_km.getD 0)
    uso_fertilizantes_kg := some (d.uso_fertilizantes_kg.getD 0)
    uso_pesticidas_kg := some (d.uso_pesticidas_kg.getD 0)
    luc_dluc_opcional_kg_co2 := some (d.luc_dluc_opcional_kg_co2.getD 0)
    fator_biomassa_agricola := d.fator_biomassa_agricola }

/-- Industrial input with every absent numeric field made an explicit 0. -/
def preencherIndustrial (d : DadosIndustrial) : DadosIndustrial :=
  { energia_eletrica_kwh := some (d.energia_eletrica_kwh.getD 0)
    energia_termica_mj := some (d.energia_termica_mj.getD 0)
    agua_m3 := some (d.agua_m3.getD 0) }

/-- Distribution input with the absent numeric field made an explicit 0
(the transport mode is a string, not a numeric field). -/
def preencherDistribuicao (d : DadosDistribuicao) : DadosDistribuicao :=
  { modal_transporte := d.modal_transporte
    distancia_km := some (d.distancia_km.getD 0)
    quantidade_biomassa_kg := some (d.quantidade_biomassa_kg.getD 0) }

/-! ## Concrete fixtures (for witnesses and counterexamples) -/

/-- The empty factor table: every lookup takes its hard-coded default. -/
def fatoresVazio : Fatores := fun _ => none

/-- A factor table whose road-transport factor is 100 gCO₂/tkm instead of
the literature default 62. -/
def fatoresRodo100 : Fatores :=
  fun nome => if nome = "fator_transporte_rodoviario" then some 100 else none

/-- The pinus profile of the reference configuration (PCI 18.5 MJ/kg). -/
def pinusInfo : BiomassaInfo :=
  { pci := 18.5, densidade := 450, fator_biomassa_agricola := 50
    categoria := "residuo_florestal" }

/-- A one-entry catalog holding the pinus profile. -/
def biomassasExemplo : Biomassas :=
  fun nome => if nome = "pinus" then some pinusInfo else none

/-- The sample request of `exemplo_uso` in src/core/calculo.py. -/
def entradaExemplo : DadosEntrada :=
  { biomassa := some "pinus"
    fase_agricola := some
      { quantidade_biomassa_kg := some 1000
        distancia_transporte_km := some 50
        uso_fertilizantes_kg := some 10
        uso_pesticidas_kg := some 2
        luc_dluc_opcional_kg_co2 := some 0 }
    fase_industrial := some
      { energia_eletrica_kwh := some 150
        energia_termica_mj := some 500
        agua_m3 := some 5 }
    fase_distribuicao := some
      { modal_transporte := some "rodoviario"
        distancia_km := some 200 }
    fase_uso := some { tipo_combustao := some "caldeira" } }

/-- A minimal request whose use-phase sub-record is present: the call
injects quantity and PCI into it, so the caller observes the mutation. -/
def entradaUsoPresente : DadosEntrada :=
  { biomassa := some "pinus"
    fase_uso := some {} }

/-- The post-call state of `entradaUsoPresente`: the use-phase sub-record
has received the injected quantity (0) and PCI (18.5). -/
def posUsoPresente : DadosEntrada :=
  { biomassa := some "pinus"
    fase_uso := some
      { quantidade_biomassa_kg := some 0
        pci := some 18.5
        tipo_combustao := none } }

/-- A request that is invalid twice over: zero biomass quantity and an
unsupported transport mode. -/
def entradaInvalida : DadosEntrada :=
  { biomassa := some "pinus"
    fase_agricola := some { quantidade_biomassa_kg := some 0 }
    fase_distribuicao := some { modal_transporte := some "aereo" } }

/-! ## Theorems -/

/-- Inversion of a successful aggregator call: the biomass id was present,
nonempty and in the catalog, and the outcome is the success branch. -/
theorem calcular_ok_inv {fatores : Fatores} {biomassas : Biomassas}
    {dados : DadosEntrada} {r : Resultado} {pos : DadosEntrada}
    (h : calcular_intensidade_carbono fatores biomassas dados = .ok (r, pos)) :
    ∃ nome info, dados.biomassa = some nome ∧ nome ≠ "" ∧
      biomassas nome = some info ∧
      (r, pos) = calcularNucleo fatores dados nome info := by
  cases hb : dados.biomassa with
  | none => simp [calcular_intensidade_carbono, hb] at h
  | some nome =>
    by_cases hn : nome = ""
    · subst hn
      simp [calcular_intensidade_carbono, hb] at h
    · cases hi : biomassas nome with
      | none => simp [calcular_intensidade_carbono, hb, hn, hi] at h
      | some info =>
        simp only [calcular_intensidade_carbono, hb, hi,
          if_neg hn, Except.ok.injEq] at h
        exact ⟨nome, info, rfl, hn, hi, h.symm⟩

/-- C1: for every calculation request accepted by the aggregator, the
returned total emissions equal the sum of the four per-phase emission
values, and under the reference configuration (no `fator_combustao` entry,
so the counted combustion factor is 0) the use-phase contribution to the
sum is exactly 0; the biogenic value is carried in its own field and never
enters the sum. -/
theorem C1_total_soma_das_fases (fatores : Fatores) (biomassas : Biomassas)
    (dados : DadosEntrada) (r : Resultado) (pos : DadosEntrada)
    (h : calcular_intensidade_carbono fatores biomassas dados = .ok (r, pos)) :
    r.emissoes_totais_kg_co2 =
      r.agricola.emissoes_kg_co2 + r.industrial.emissoes_kg_co2 +
        r.distribuicao.emissoes_kg_co2 + r.uso.emissoes_kg_co2 ∧
    (fatores "fator_combustao" = none → r.uso.emissoes_kg_co2 = 0) := by
  obtain ⟨nome, info, hb, hn, hi, heq⟩ := calcular_ok_inv h
  have hr : r = (calcularNucleo fatores dados nome info).1 := congrArg Prod.fst heq
  subst hr
  refine ⟨rfl, fun hc => ?_⟩
  simp [calcularNucleo, FaseUso.calcular_emissoes, getFator, hc]

/-- Witness for C1: the sample request against the empty factor table is
accepted, its total is the sum of the four phase emissions, and its
use-phase contribution is 0. -/
theorem C1_total_soma_das_fases_witness :
    (calcularNucleo fatoresVazio entradaExemplo "pinus" pinusInfo).1.emissoes_totais_kg_co2 =
      (calcularNucleo fatoresVazio entradaExemplo "pinus" pinusInfo).1.agricola.emissoes_kg_co2 +
        (calcularNucleo fatoresVazio entradaExemplo "pinus" pinusInfo).1.industrial.emissoes_kg_co2 +
        (calcularNucleo fatoresVazio entradaExemplo "pinus" pinusInfo).1.distribuicao.emissoes_kg_co2 +
        (calcularNucleo fatoresVazio entradaExemplo "pinus" pinusInfo).1.uso.emissoes_kg_co2 ∧
    (calcularNucleo fatoresVazio entradaExemplo "pinus" pinusInfo).1.uso.emissoes_kg_co2 = 0 :=
  ⟨(C1_total_soma_das_fases fatoresVazio biomassasExemplo entradaExemplo
      (calcularNucleo fatoresVazio entradaExemplo "pinus" pinusInfo).1
      (calcularNucleo fatoresVazio entradaExemplo "pinus" pinusInfo).2 rfl).1,
   (C1_total_soma_das_fases fatoresVazio biomassasExemplo entradaExemplo
      (calcularNucleo fatoresVazio entradaExemplo "pinus" pinusInfo).1
      (calcularNucleo fatoresVazio entradaExemplo "pinus" pinusInfo).2 rfl).2 rfl⟩

/-- C2: for every accepted calculation request, the carbon intensity is
total emissions × 1000 / total energy when the energy is positive and 0
otherwise; the NEEA is the fossil reference intensity minus the carbon
intensity; and the percentage reduction is NEEA / reference × 100 when the
reference is positive and 0 when it is not. -/
theorem C2_intensidade_neea_reducao (fatores : Fatores) (biomassas : Biomassas)
    (dados : DadosEntrada) (r : Resultado) (pos : DadosEntrada)
    (h : calcular_intensidade_carbono fatores biomassas dados = .ok (r, pos)) :
    (0 < r.energia_total_mj →
      r.intensidade_carbono_g_co2_mj =
        r.emissoes_totais_kg_co2 * 1000 / r.energia_total_mj) ∧
    (¬ 0 < r.energia_total_mj → r.intensidade_carbono_g_co2_mj = 0) ∧
    r.neea = r.comparacao_fossil.ci_fossil_referencia_g_co2_mj -
      r.intensidade_carbono_g_co2_mj ∧
    (0 < r.comparacao_fossil.ci_fossil_referencia_g_co2_mj →
      r.comparacao_fossil.reducao_percentual =
        r.neea / r.comparacao_fossil.ci_fossil_referencia_g_co2_mj * 100) ∧
    (r.comparacao_fossil.ci_fossil_referencia_g_co2_mj ≤ 0 →
      r.comparacao_fossil.reducao_percentual = 0) := by
  obtain ⟨nome, info, hb, hn, hi, heq⟩ := calcular_ok_inv h
  have hr : r = (calcularNucleo fatores dados nome info).1 := congrArg Prod.fst heq
  subst hr
  refine ⟨fun he => ?_, fun he => ?_, rfl, fun hc => ?_, fun hc => ?_⟩
  all_goals
    first
    | (simp only [calcularNucleo] at he ⊢; split_ifs <;> first | rfl | linarith)
    | (simp only [calcularNucleo] at hc ⊢; split_ifs <;> first | rfl | linarith)

/-- Witness for C2 at the sample request with the empty factor table: the
energy is positive, the reference intensity is the default 85, and the
three formulas hold there. -/
theorem C2_intensidade_neea_reducao_witness :
    (calcularNucleo fatoresVazio entradaExemplo "pinus" pinusInfo).1.intensidade_carbono_g_co2_mj =
      (calcularNucleo fatoresVazio entradaExemplo "pinus" pinusInfo).1.emissoes_totais_kg_co2 *
        1000 / (calcularNucleo fatoresVazio entradaExemplo "pinus" pinusInfo).1.energia_total_mj ∧
    (calcularNucleo fatoresVazio entradaExemplo "pinus" pinusInfo).1.neea =
      (calcularNucleo fatoresVazio entradaExemplo "pinus"
        pinusInfo).1.comparacao_fossil.ci_fossil_referencia_g_co2_mj -
        (calcularNucleo fatoresVazio entradaExemplo "pinus" pinusInfo).1.intensidade_carbono_g_co2_mj ∧
    (calcularNucleo fatoresVazio entradaExemplo "pinus" pinusInfo).1.comparacao_fossil.reducao_percentual =
      (calcularNucleo fatoresVazio entradaExemplo "pinus" pinusInfo).1.neea /
        (calcularNucleo fatoresVazio entradaExemplo "pinus"
          pinusInfo).1.comparacao_fossil.ci_fossil_referencia_g_co2_mj * 100 :=
  ⟨(C2_intensidade_neea_reducao fatoresVazio biomassasExemplo entradaExemplo
      (calcularNucleo fatoresVazio entradaExemplo "pinus" pinusInfo).1
      (calcularNucleo fatoresVazio entradaExemplo "pinus" pinusInfo).2 rfl).1
        (by norm_num [calcularNucleo, entradaExemplo, pinusInfo]),
   (C2_intensidade_neea_reducao fatoresVazio biomassasExemplo entradaExemplo
      (calcularNucleo fatoresVazio entradaExemplo "pinus" pinusInfo).1
      (calcularNucleo fatoresVazio entradaExemplo "pinus" pinusInfo).2 rfl).2.2.1,
   (C2_intensidade_neea_reducao fatoresVazio biomassasExemplo entradaExemplo
      (calcularNucleo fatoresVazio entradaExemplo "pinus" pinusInfo).1
      (calcularNucleo fatoresVazio entradaExemplo "pinus" pinusInfo).2 rfl).2.2.2.1
        (by norm_num [calcularNucleo, getFator, fatoresVazio])⟩

/-- C5: for every accepted calculation request the four per-phase
percentages sum to exactly 100 when the total emissions are positive (the
±0.1 tolerance of the spec is not needed in exact arithmetic), and all four
percentages are 0 when the total is 0, so no division by zero occurs. -/
theorem C5_percentuais_somam_100 (fatores : Fatores) (biomassas : Biomassas)
    (dados : DadosEntrada) (r : Resultado) (pos : DadosEntrada)
    (h : calcular_intensidade_carbono fatores biomassas dados = .ok (r, pos)) :
    (0 < r.emissoes_totais_kg_co2 →
      r.percentuais.agricola + r.percentuais.industrial +
        r.percentuais.distribuicao + r.percentuais.uso = 100) ∧
    (r.emissoes_totais_kg_co2 = 0 →
      r.percentuais.agricola = 0 ∧ r.percentuais.industrial = 0 ∧
        r.percentuais.distribuicao = 0 ∧ r.percentuais.uso = 0) := by
  obtain ⟨nome, info, hb, hn, hi, heq⟩ := calcular_ok_inv h
  have hr : r = (calcularNucleo fatores dados nome info).1 := congrArg Prod.fst heq
  subst hr
  constructor
  · intro ht
    simp only [calcularNucleo] at ht ⊢
    split_ifs with hpos
    · have hne := ne_of_gt ht
      dsimp only
      field_simp
      ring
    · exact absurd ht hpos
  · intro ht
    simp only [calcularNucleo] at ht ⊢
    split_ifs with hpos
    · exact absurd (ht ▸ hpos) (lt_irrefl 0)
    · exact ⟨rfl, rfl, rfl, rfl⟩

/-- Witness for C5: at the sample request the total is positive and the
four percentages sum to exactly 100. -/
theorem C5_percentuais_somam_100_witness :
    (calcularNucleo fatoresVazio entradaExemplo "pinus" pinusInfo).1.percentuais.agricola +
      (calcularNucleo fatoresVazio entradaExemplo "pinus" pinusInfo).1.percentuais.industrial +
      (calcularNucleo fatoresVazio entradaExemplo "pinus" pinusInfo).1.percentuais.distribuicao +
      (calcularNucleo fatoresVazio entradaExemplo "pinus" pinusInfo).1.percentuais.uso = 100 :=
  (C5_percentuais_somam_100 fatoresVazio biomassasExemplo entradaExemplo
      (calcularNucleo fatoresVazio entradaExemplo "pinus" pinusInfo).1
      (calcularNucleo fatoresVazio entradaExemplo "pinus" pinusInfo).2 rfl).1
    (by norm_num [calcularNucleo, entradaExemplo, pinusInfo, getFator, fatoresVazio,
      FaseAgricola.calcular_emissoes, FaseIndustrial.calcular_emissoes,
      FaseDistribuicao.calcular_emissoes, FaseUso.calcular_emissoes, fatorModal])

/-- C3: the agricultural-phase emissions equal
biomass·agriculturalFactor/1000 + fertilizer·fertFactor/1000 +
pesticide·pestFactor/1000 + (roadFactor·distance·biomass/1000)/1000 +
lucKgCO2, and in particular 1000 kg at factor 50 gCO₂/kg with all other
inputs absent give exactly 50 kg CO₂, and additionally 500 kg CO₂ of
LUC/dLUC give exactly 550 kg CO₂. -/
theorem C3_formula_fase_agricola :
    (∀ (fatores : Fatores) (dados : DadosAgricola),
      (FaseAgricola.calcular_emissoes fatores dados).emissoes_kg_co2 =
        dados.quantidade_biomassa_kg.getD 0 * dados.fator_biomassa_agricola.getD 100 / 1000 +
          dados.uso_fertilizantes_kg.getD 0 * getFator fatores "fator_fertilizante_n" 6540 / 1000 +
          dados.uso_pesticidas_kg.getD 0 * getFator fatores "fator_pesticida" 10000 / 1000 +
          getFator fatores "fator_transporte_rodoviario" 62 *
            dados.distancia_transporte_km.getD 0 * dados.quantidade_biomassa_kg.getD 0 /
            1000 / 1000 +
          dados.luc_dluc_opcional_kg_co2.getD 0) ∧
    (∀ fatores : Fatores,
      (FaseAgricola.calcular_emissoes fatores
          { quantidade_biomassa_kg := some 1000
            fator_biomassa_agricola := some 50 }).emissoes_kg_co2 = 50) ∧
    (∀ fatores : Fatores,
      (FaseAgricola.calcular_emissoes fatores
          { quantidade_biomassa_kg := some 1000
            fator_biomassa_agricola := some 50
            luc_dluc_opcional_kg_co2 := some 500 }).emissoes_kg_co2 = 550) := by
  refine ⟨fun fatores dados => rfl, fun fatores => ?_, fun fatores => ?_⟩ <;>
    norm_num [FaseAgricola.calcular_emissoes]

/-- C4: under the default (zero) combustion factor the use-phase net
emissions are 0 for every input, and the reported biogenic emissions are
exactly biomass × 1.84 kg CO₂ per kg. -/
theorem C4_fase_uso_neutra (fatores : Fatores) (dados : DadosUso) :
    (getFator fatores "fator_combustao" 0 = 0 →
      (FaseUso.calcular_emissoes fatores dados).emissoes_kg_co2 = 0) ∧
    (FaseUso.calcular_emissoes fatores dados).emissoes_biogenicas_kg_co2 =
      dados.quantidade_biomassa_kg.getD 0 * 1.84 := by
  refine ⟨fun hc => ?_, rfl⟩
  simp [FaseUso.calcular_emissoes, hc]

/-- Witness for C4: 1000 kg of biomass at PCI 18.5 against the empty factor
table burn with 0 net emissions and 1840 kg of biogenic CO₂. -/
theorem C4_fase_uso_neutra_witness :
    (FaseUso.calcular_emissoes fatoresVazio
        { quantidade_biomassa_kg := some 1000, pci := some 18.5 }).emissoes_kg_co2 = 0 ∧
    (FaseUso.calcular_emissoes fatoresVazio
        { quantidade_biomassa_kg := some 1000, pci := some 18.5 }).emissoes_biogenicas_kg_co2 =
      1000 * 1.84 :=
  ⟨(C4_fase_uso_neutra fatoresVazio
      { quantidade_biomassa_kg := some 1000, pci := some 18.5 }).1 rfl,
   (C4_fase_uso_neutra fatoresVazio
      { quantidade_biomassa_kg := some 1000, pci := some 18.5 }).2⟩

/-- Counterexample to C6 as stated: for the pair of distribution inputs
that are identical except for the mode but have distance 0, the maritime
emissions (0) are not strictly less than the road emissions (0), even
under the reference factors. -/
theorem C6_contraexemplo :
    ¬ ((FaseDistribuicao.calcular_emissoes fatoresVazio
          { modal_transporte := some "maritimo", distancia_km := some 0,
            quantidade_biomassa_kg := some 1000 }).emissoes_kg_co2 <
        (FaseDistribuicao.calcular_emissoes fatoresVazio
          { modal_transporte := some "rodoviario", distancia_km := some 0,
            quantidade_biomassa_kg := some 1000 }).emissoes_kg_co2) := by
  have hm : (FaseDistribuicao.calcular_emissoes fatoresVazio
      { modal_transporte := some "maritimo", distancia_km := some 0,
        quantidade_biomassa_kg := some 1000 }).emissoes_kg_co2 =
      8.5 * 0 * 1000 / 1000 / 1000 := rfl
  have hr : (FaseDistribuicao.calcular_emissoes fatoresVazio
      { modal_transporte := some "rodoviario", distancia_km := some 0,
        quantidade_biomassa_kg := some 1000 }).emissoes_kg_co2 =
      62 * 0 * 1000 / 1000 / 1000 := rfl
  rw [hm, hr]
  norm_num

/-- C6 (amended): for distribution inputs identical except for the mode,
with a strictly positive distance and biomass mass, and with the maritime
factor below the road factor (as in the reference configuration
8.5 < 62 gCO₂/tkm), the maritime emissions are strictly less than the road
emissions. -/
theorem C6_maritimo_menor_que_rodoviario (fatores : Fatores) (d q : ℚ)
    (hf : getFator fatores "fator_transporte_maritimo" 8.5 <
      getFator fatores "fator_transporte_rodoviario" 62)
    (hd : 0 < d) (hq : 0 < q) :
    (FaseDistribuicao.calcular_emissoes fatores
        { modal_transporte := some "maritimo", distancia_km := some d,
          quantidade_biomassa_kg := some q }).emissoes_kg_co2 <
      (FaseDistribuicao.calcular_emissoes fatores
        { modal_transporte := some "rodoviario", distancia_km := some d,
          quantidade_biomassa_kg := some q }).emissoes_kg_co2 := by
  have hm : (FaseDistribuicao.calcular_emissoes fatores
      { modal_transporte := some "maritimo", distancia_km := some d,
        quantidade_biomassa_kg := some q }).emissoes_kg_co2 =
      getFator fatores "fator_transporte_maritimo" 8.5 * d * q / 1000 / 1000 := rfl
  have hr : (FaseDistribuicao.calcular_emissoes fatores
      { modal_transporte := some "rodoviario", distancia_km := some d,
        quantidade_biomassa_kg := some q }).emissoes_kg_co2 =
      getFator fatores "fator_transporte_rodoviario" 62 * d * q / 1000 / 1000 := rfl
  rw [hm, hr]
  have h1 : getFator fatores "fator_transporte_maritimo" 8.5 * d * q <
      getFator fatores "fator_transporte_rodoviario" 62 * d * q :=
    mul_lt_mul_of_pos_right (mul_lt_mul_of_pos_right hf hd) hq
  linarith

/-- Witness for C6 (amended): 1000 km and 1000 kg against the empty factor
table give maritime emissions 8.5 kg CO₂ versus road emissions 62 kg CO₂. -/
theorem C6_maritimo_menor_que_rodoviario_witness :
    (FaseDistribuicao.calcular_emissoes fatoresVazio
        { modal_transporte := some "maritimo", distancia_km := some 1000,
          quantidade_biomassa_kg := some 1000 }).emissoes_kg_co2 <
      (FaseDistribuicao.calcular_emissoes fatoresVazio
        { modal_transporte := some "rodoviario", distancia_km := some 1000,
          quantidade_biomassa_kg := some 1000 }).emissoes_kg_co2 :=
  C6_maritimo_menor_que_rodoviario fatoresVazio 1000 1000
    (by norm_num [getFator, fatoresVazio]) (by norm_num) (by norm_num)

/-- C7: the aggregator fails with the missing-id error when the biomass id
is absent (or empty, which is falsy in Python), fails with the unknown-id
error when the id is not in the catalog, and otherwise returns the full
aggregate result for every factor table — a missing emission factor never
causes a failure because every lookup carries a hard-coded default, and no
partial result exists besides the two error exits. -/
theorem C7_tratamento_de_erros (fatores : Fatores) (biomassas : Biomassas)
    (dados : DadosEntrada) :
    (dados.biomassa = none →
      calcular_intensidade_carbono fatores biomassas dados =
        .error .missingBiomassId) ∧
    (dados.biomassa = some "" →
      calcular_intensidade_carbono fatores biomassas dados =
        .error .missingBiomassId) ∧
    (∀ nome, dados.biomassa = some nome → nome ≠ "" → biomassas nome = none →
      calcular_intensidade_carbono fatores biomassas dados =
        .error (.unknownBiomass nome)) ∧
    (∀ nome info, dados.biomassa = some nome → nome ≠ "" →
      biomassas nome = some info →
      calcular_intensidade_carbono fatores biomassas dados =
        .ok (calcularNucleo fatores dados nome info)) := by
  refine ⟨fun hb => ?_, fun hb => ?_, fun nome hb hn hnone => ?_,
    fun nome info hb hn hsome => ?_⟩
  · simp [calcular_intensidade_carbono, hb]
  · simp [calcular_intensidade_carbono, hb]
  · simp [calcular_intensidade_carbono, hb, hnone, if_neg hn]
  · simp [calcular_intensidade_carbono, hb, hsome, if_neg hn]

/-- Witness for C7: with the empty factor table, an id-less request fails
with the missing-id error, an unknown id fails with the unknown-id error,
and the sample request returns the full result. -/
theorem C7_tratamento_de_erros_witness :
    calcular_intensidade_carbono fatoresVazio biomassasExemplo {} =
      .error .missingBiomassId ∧
    calcular_intensidade_carbono fatoresVazio biomassasExemplo
      { biomassa := some "bagaco" } = .error (.unknownBiomass "bagaco") ∧
    calcular_intensidade_carbono fatoresVazio biomassasExemplo entradaExemplo =
      .ok (calcularNucleo fatoresVazio entradaExemplo "pinus" pinusInfo) :=
  ⟨(C7_tratamento_de_erros fatoresVazio biomassasExemplo {}).1 rfl,
   (C7_tratamento_de_erros fatoresVazio biomassasExemplo
      { biomassa := some "bagaco" }).2.2.1 "bagaco" rfl (by decide) rfl,
   (C7_tratamento_de_erros fatoresVazio biomassasExemplo entradaExemplo).2.2.2
      "pinus" pinusInfo rfl (by decide) rfl⟩

/-- Counterexample to C9 as stated: the aggregator call on a request whose
use-phase sub-record is present succeeds but leaves the caller-supplied
input changed — the use-phase sub-record has acquired the injected biomass
quantity and PCI. -/
theorem C9_contraexemplo :
    Except.map Prod.snd (calcular_intensidade_carbono fatoresVazio biomassasExemplo
      entradaUsoPresente) = Except.ok posUsoPresente ∧
    posUsoPresente ≠ entradaUsoPresente := by
  refine ⟨rfl, ?_⟩
  simp [posUsoPresente, entradaUsoPresente]

/-- C9 (amended): the aggregator never mutates the factor table or the
catalog (they are read-only values of the model) and the top-level request
id and the industrial sub-record are unchanged, but a present
caller-supplied agricultural, distribution or use sub-record is mutated by
exactly the documented profile injections: the agricultural factor, the
propagated biomass quantity, and the quantity plus PCI respectively; an
absent sub-record stays absent for the caller. -/
theorem C9_mutacoes_documentadas (fatores : Fatores) (biomassas : Biomassas)
    (dados : DadosEntrada) (r : Resultado) (pos : DadosEntrada)
    (h : calcular_intensidade_carbono fatores biomassas dados = .ok (r, pos)) :
    pos.biomassa = dados.biomassa ∧
    pos.fase_industrial = dados.fase_industrial ∧
    (dados.fase_agricola = none → pos.fase_agricola = none) ∧
    (∀ da, dados.fase_agricola = some da → pos.fase_agricola =
      some { da with
               fator_biomassa_agricola :=
                 some r.biomassa_info.fator_biomassa_agricola }) ∧
    (dados.fase_distribuicao = none → pos.fase_distribuicao = none) ∧
    (∀ dd, dados.fase_distribuicao = some dd → pos.fase_distribuicao =
      some { dd with
               quantidade_biomassa_kg :=
                 some ((dados.fase_agricola.getD {}).quantidade_biomassa_kg.getD 0) }) ∧
    (dados.fase_uso = none → pos.fase_uso = none) ∧
    (∀ du, dados.fase_uso = some du → pos.fase_uso =
      some { du with
        quantidade_biomassa_kg :=
          some ((dados.fase_agricola.getD {}).quantidade_biomassa_kg.getD 0)
        pci := some r.biomassa_info.pci }) := by
  obtain ⟨nome, info, hb, hn, hi, heq⟩ := calcular_ok_inv h
  have hr : r = (calcularNucleo fatores dados nome info).1 := congrArg Prod.fst heq
  have hp : pos = (calcularNucleo fatores dados nome info).2 := congrArg Prod.snd heq
  subst hr
  subst hp
  refine ⟨rfl, rfl, fun ha => ?_, fun da ha => ?_, fun hd => ?_, fun dd hd => ?_,
    fun hu => ?_, fun du hu => ?_⟩
  · simp [calcularNucleo, ha]
  · simp [calcularNucleo, ha]
  · simp [calcularNucleo, hd]
  · simp [calcularNucleo, hd]
  · simp [calcularNucleo, hu]
  · simp [calcularNucleo, hu]

/-- Witness for C9 (amended): at the sample request, the call keeps the id
and the industrial sub-record and rewrites the three documented fields. -/
theorem C9_mutacoes_documentadas_witness :
    (calcularNucleo fatoresVazio entradaExemplo "pinus" pinusInfo).2.biomassa =
      entradaExemplo.biomassa ∧
    (calcularNucleo fatoresVazio entradaExemplo "pinus" pinusInfo).2.fase_industrial =
      entradaExemplo.fase_industrial ∧
    (calcularNucleo fatoresVazio entradaExemplo "pinus" pinusInfo).2.fase_uso =
      some { quantidade_biomassa_kg := some 1000, pci := some 18.5,
             tipo_combustao := some "caldeira" } :=
  ⟨(C9_mutacoes_documentadas fatoresVazio biomassasExemplo entradaExemplo
      (calcularNucleo fatoresVazio entradaExemplo "pinus" pinusInfo).1
      (calcularNucleo fatoresVazio entradaExemplo "pinus" pinusInfo).2 rfl).1,
   (C9_mutacoes_documentadas fatoresVazio biomassasExemplo entradaExemplo
      (calcularNucleo fatoresVazio entradaExemplo "pinus" pinusInfo).1
      (calcularNucleo fatoresVazio entradaExemplo "pinus" pinusInfo).2 rfl).2.1,
   (C9_mutacoes_documentadas fatoresVazio biomassasExemplo entradaExemplo
      (calcularNucleo fatoresVazio entradaExemplo "pinus" pinusInfo).1
      (calcularNucleo fatoresVazio entradaExemplo "pinus" pinusInfo).2 rfl).2.2.2.2.2.2.2
      { tipo_combustao := some "caldeira" } rfl⟩

/-- C10: a distribution input whose transport mode is present but outside
the three known modes is computed without failure using the hard-coded
constant factor 62 gCO₂/tkm — whatever road factor the table holds — while
an absent mode defaults to the road mode and its table factor. -/
theorem C10_modal_desconhecido_usa_62 (fatores : Fatores) (dados : DadosDistribuicao) :
    (∀ modal, dados.modal_transporte = some modal →
      modal ∉ (["rodoviario", "maritimo", "ferroviario"] : List String) →
      (FaseDistribuicao.calcular_emissoes fatores dados).emissoes_kg_co2 =
        62 * dados.distancia_km.getD 0 * dados.quantidade_biomassa_kg.getD 0 /
          1000 / 1000) ∧
    (dados.modal_transporte = none →
      FaseDistribuicao.calcular_emissoes fatores dados =
        FaseDistribuicao.calcular_emissoes fatores
          { dados with modal_transporte := some "rodoviario" }) := by
  constructor
  · intro modal hm hnot
    simp only [List.mem_cons, List.not_mem_nil, or_false, not_or] at hnot
    obtain ⟨h1, h2, h3⟩ := hnot
    simp [FaseDistribuicao.calcular_emissoes, fatorModal, hm, h1, h2, h3]
  · intro hm
    simp [FaseDistribuicao.calcular_emissoes, hm]

/-- Witness for C10: the unsupported mode aereo over 1000 km with 1000 kg is
charged at the constant 62 gCO₂/tkm even though the table sets the road
factor to 100, and an absent mode computes as the road mode. -/
theorem C10_modal_desconhecido_usa_62_witness :
    (FaseDistribuicao.calcular_emissoes fatoresRodo100
        { modal_transporte := some "aereo", distancia_km := some 1000,
          quantidade_biomassa_kg := some 1000 }).emissoes_kg_co2 =
      62 * 1000 * 1000 / 1000 / 1000 ∧
    FaseDistribuicao.calcular_emissoes fatoresRodo100
        { distancia_km := some 1000, quantidade_biomassa_kg := some 1000 } =
      FaseDistribuicao.calcular_emissoes fatoresRodo100
        { modal_transporte := some "rodoviario", distancia_km := some 1000,
          quantidade_biomassa_kg := some 1000 } :=
  ⟨(C10_modal_desconhecido_usa_62 fatoresRodo100
      { modal_transporte := some "aereo", distancia_km := some 1000,
        quantidade_biomassa_kg := some 1000 }).1 "aereo" rfl (by decide),
   (C10_modal_desconhecido_usa_62 fatoresRodo100
      { distancia_km := some 1000, quantidade_biomassa_kg := some 1000 }).2 rfl⟩

/-- The overall verdict of `validar_completo` is the conjunction of the
biomass-id check and the four per-phase verdicts. -/
theorem validar_completo_conjuncao (dados : DadosEntrada) :
    (validar_completo dados).1 =
      (decide (dados.biomassa.getD "" ∈
          (["amendoim", "pinus", "eucalipto"] : List String)) &&
        (validar_fase_agricola (dados.fase_agricola.getD {})).1 &&
        (validar_fase_industrial (dados.fase_industrial.getD {})).1 &&
        (validar_fase_distribuicao (dados.fase_distribuicao.getD {})).1 &&
        (validar_fase_uso (dados.fase_uso.getD {})).1) := by
  simp only [validar_completo]
  split_ifs <;> simp_all

/-- An invalid biomass id contributes its full error entry to the map. -/
theorem validar_completo_acumula_biomassa (dados : DadosEntrada)
    (hinv : dados.biomassa.getD "" ∉
      (["amendoim", "pinus", "eucalipto"] : List String)) :
    ("biomassa", ["Biomassa inválida. Opções: amendoim, pinus, eucalipto"]) ∈
      (validar_completo dados).2 := by
  simp only [validar_completo]
  split_ifs <;> simp_all

/-- An invalid agricultural phase contributes its full error list to the
map, not only its first error. -/
theorem validar_completo_acumula_agricola (dados : DadosEntrada)
    (hinv : (validar_fase_agricola (dados.fase_agricola.getD {})).1 = false) :
    ("fase_agricola", (validar_fase_agricola (dados.fase_agricola.getD {})).2) ∈
      (validar_completo dados).2 := by
  simp only [validar_completo]
  split_ifs <;> simp_all

/-- An invalid industrial phase contributes its full error list to the map. -/
theorem validar_completo_acumula_industrial (dados : DadosEntrada)
    (hinv : (validar_fase_industrial (dados.fase_industrial.getD {})).1 = false) :
    ("fase_industrial", (validar_fase_industrial (dados.fase_industrial.getD {})).2) ∈
      (validar_completo dados).2 := by
  simp only [validar_completo]
  split_ifs <;> simp_all

/-- An invalid distribution phase contributes its full error list to the
map. -/
theorem validar_completo_acumula_distribuicao (dados : DadosEntrada)
    (hinv : (validar_fase_distribuicao (dados.fase_distribuicao.getD {})).1 = false) :
    ("fase_distribuicao", (validar_fase_distribuicao (dados.fase_distribuicao.getD {})).2) ∈
      (validar_completo dados).2 := by
  simp only [validar_completo]
  split_ifs <;> simp_all

/-- An invalid use phase contributes its full error list to the map. -/
theorem validar_completo_acumula_uso (dados : DadosEntrada)
    (hinv : (validar_fase_uso (dados.fase_uso.getD {})).1 = false) :
    ("fase_uso", (validar_fase_uso (dados.fase_uso.getD {})).2) ∈
      (validar_completo dados).2 := by
  simp only [validar_completo]
  split_ifs <;> simp_all

/-- A non-positive biomass quantity makes the agricultural phase invalid
with the dedicated biomass-quantity error. -/
theorem validar_fase_agricola_quantidade_zero (da : DadosAgricola)
    (hq : da.quantidade_biomassa_kg.getD 0 ≤ 0) :
    (validar_fase_agricola da).1 = false ∧
      "Quantidade de biomassa deve ser maior que zero" ∈
        (validar_fase_agricola da).2 := by
  simp only [validar_fase_agricola, if_pos hq]
  split_ifs <;> simp_all

/-- A transport mode outside the three known modes makes the distribution
phase invalid with the dedicated mode error. -/
theorem validar_fase_distribuicao_modal_invalido (dd : DadosDistribuicao)
    (hm : dd.modal_transporte.getD "" ∉
      (["rodoviario", "maritimo", "ferroviario"] : List String)) :
    (validar_fase_distribuicao dd).1 = false ∧
      "Modal de transporte inválido. Opções: rodoviario, maritimo, ferroviario" ∈
        (validar_fase_distribuicao dd).2 := by
  simp only [validar_fase_distribuicao, if_neg hm]
  split_ifs <;> simp_all

/-- C8: the validator is a total function of its typed numeric input;
absent numeric fields validate exactly as explicit zeros; the overall
verdict is the conjunction of the biomass-id check and the four per-phase
verdicts; an invalid phase contributes its full error list to the result
(accumulation, no short-circuit); a biomass quantity of 0 makes the input
invalid with the biomass-quantity error, and an unsupported mode such as
aereo makes it invalid with the mode error. -/
theorem C8_validador_total_e_acumulativo (dados : DadosEntrada) :
    ((validar_completo dados).1 =
      (decide (dados.biomassa.getD "" ∈
          (["amendoim", "pinus", "eucalipto"] : List String)) &&
        (validar_fase_agricola (dados.fase_agricola.getD {})).1 &&
        (validar_fase_industrial (dados.fase_industrial.getD {})).1 &&
        (validar_fase_distribuicao (dados.fase_distribuicao.getD {})).1 &&
        (validar_fase_uso (dados.fase_uso.getD {})).1)) ∧
    ((validar_fase_agricola (dados.fase_agricola.getD {})).1 = false →
      ("fase_agricola", (validar_fase_agricola (dados.fase_agricola.getD {})).2) ∈
        (validar_completo dados).2) ∧
    ((validar_fase_industrial (dados.fase_industrial.getD {})).1 = false →
      ("fase_industrial", (validar_fase_industrial (dados.fase_industrial.getD {})).2) ∈
        (validar_completo dados).2) ∧
    ((validar_fase_distribuicao (dados.fase_distribuicao.getD {})).1 = false →
      ("fase_distribuicao", (validar_fase_distribuicao (dados.fase_distribuicao.getD {})).2) ∈
        (validar_completo dados).2) ∧
    ((validar_fase_uso (dados.fase_uso.getD {})).1 = false →
      ("fase_uso", (validar_fase_uso (dados.fase_uso.getD {})).2) ∈
        (validar_completo dados).2) ∧
    (∀ da : DadosAgricola,
      validar_fase_agricola (preencherAgricola da) = validar_fase_agricola da) ∧
    (∀ di : DadosIndustrial,
      validar_fase_industrial (preencherIndustrial di) = validar_fase_industrial di) ∧
    (∀ dd : DadosDistribuicao,
      validar_fase_distribuicao (preencherDistribuicao dd) = validar_fase_distribuicao dd) ∧
    (∀ da, dados.fase_agricola = some da → da.quantidade_biomassa_kg = some 0 →
      (validar_completo dados).1 = false ∧
        "Quantidade de biomassa deve ser maior que zero" ∈
          (validar_fase_agricola da).2) ∧
    (∀ dd, dados.fase_distribuicao = some dd →
      dd.modal_transporte.getD "" ∉
        (["rodoviario", "maritimo", "ferroviario"] : List String) →
      (validar_completo dados).1 = false ∧
        "Modal de transporte inválido. Opções: rodoviario, maritimo, ferroviario" ∈
          (validar_fase_distribuicao dd).2) := by
  refine ⟨validar_completo_conjuncao dados,
    validar_completo_acumula_agricola dados,
    validar_completo_acumula_industrial dados,
    validar_completo_acumula_distribuicao dados,
    validar_completo_acumula_uso dados,
    fun da => rfl, fun di => rfl, fun dd => rfl,
    fun da hda hq => ?_, fun dd hdd hm => ?_⟩
  · have hz := validar_fase_agricola_quantidade_zero da (by rw [hq]; exact le_refl 0)
    refine ⟨?_, hz.2⟩
    rw [validar_completo_conjuncao]
    simp [hda, hz.1]
  · have hz := validar_fase_distribuicao_modal_invalido dd hm
    refine ⟨?_, hz.2⟩
    rw [validar_completo_conjuncao]
    simp [hdd, hz.1]

/-- Witness for C8: the doubly invalid sample request is rejected, the
biomass-quantity and mode errors are present, and filling the absent
fields of the empty agricultural record with zeros leaves its verdict
unchanged. -/
theorem C8_validador_total_e_acumulativo_witness :
    (validar_completo entradaInvalida).1 = false ∧
    "Quantidade de biomassa deve ser maior que zero" ∈
      (validar_fase_agricola { quantidade_biomassa_kg := some 0 }).2 ∧
    "Modal de transporte inválido. Opções: rodoviario, maritimo, ferroviario" ∈
      (validar_fase_distribuicao { modal_transporte := some "aereo" }).2 ∧
    validar_fase_agricola (preencherAgricola {}) = validar_fase_agricola {} :=
  ⟨((C8_validador_total_e_acumulativo entradaInvalida).2.2.2.2.2.2.2.2.1
      { quantidade_biomassa_kg := some 0 } rfl rfl).1,
   ((C8_validador_total_e_acumulativo entradaInvalida).2.2.2.2.2.2.2.2.1
      { quantidade_biomassa_kg := some 0 } rfl rfl).2,
   ((C8_validador_total_e_acumulativo entradaInvalida).2.2.2.2.2.2.2.2.2
      { modal_transporte := some "aereo" } rfl (by decide)).2,
   (C8_validador_total_e_acumulativo entradaInvalida).2.2.2.2.2.1 {}⟩

end BioCalc

